import Mathlib

/-!
  Verification development for two UI controllers of a note-taking web
  application: the sandboxed component view
  (src/app/assets/javascripts/directives/views/componentView.js) and the
  note editor panel (src/unnamed/part_000, an Angular directive written
  in TypeScript).

  The JavaScript/TypeScript controllers are shallowly embedded: each
  controller instance becomes a record of its mutable fields, each
  method becomes a pure function from state to state (plus explicit
  effect counters for the calls it makes into the external component
  manager), and the Angular timer service becomes an explicit scheduler
  record holding the currently scheduled timers.
-/

namespace Spec2Proof

/-! ## Constants from the source -/

/-- componentView.js line 7: maximum wait for a component to load (ms). -/
def MAX_LOAD_THRESHOLD : Int := 4000

/-- part_000 line 37: length of the plain-text preview of a note. -/
def NOTE_PREVIEW_CHAR_LIMIT : Nat := 80

/-- part_000 line 38: minimum visible duration of a status message (ms). -/
def MINIMUM_STATUS_DURATION : Int := 400

/-- part_000 line 39: debounce before a remote sync, with an account (ms). -/
def SAVE_TIMEOUT_DEBOUNCE : Int := 350

/-- part_000 line 40: debounce before a remote sync when bypassing the
debouncer or without an account (ms). -/
def SAVE_TIMEOUT_NO_DEBOUNCE : Int := 100

/-- Modelled from the spec: the alert text shown when attempting to edit a
deleted note. The string constant lives in the repositorys strings module,
which is outside src/; only its identity matters here. -/
def STRING_DELETED_NOTE : String := "deleted-note-alert"

/-- Modelled from the spec: the alert text shown when the edited note can
no longer be found in the item store. Constant from the strings module,
outside src/. -/
def STRING_INVALID_NOTE : String := "invalid-note-alert"

/-- Modelled from the spec: the ellipsis suffix appended to truncated note
previews. Constant from the strings module, outside src/. -/
def STRING_ELLIPSES : String := "..."

/-! ## Component records (component view side)

A component record as consumed by componentView.js. The method
`hasValidHostedUrl` belongs to the external snjs library, so its result is
a plain field of the record; `local_url` keeps JavaScript truthiness
(null/undefined/empty string all count as absent). -/

structure SNComponentRecord where
  offlineOnly : Bool
  local_url : Option String
  hostedUrlValid : Bool
  valid_until : Option Int
  active : Bool
  deriving DecidableEq, Repr

/-- JavaScript truthiness of an optional string: undefined, null and the
empty string are falsy. -/
def jsTruthy : Option String → Bool
  | none => false
  | some s => !(s == "")

/-! ## reloadStatus (componentView.js lines 121-161) -/

/-- componentView.js line 125:
`component.offlineOnly && !isDesktopApplication()`. -/
def offlineRestricted (c : SNComponentRecord) (isDesktop : Bool) : Bool :=
  c.offlineOnly && !isDesktop

/-- componentView.js lines 126-132: on desktop, a URL error means neither a
truthy local_url nor a valid hosted URL; elsewhere it means no valid hosted
URL. -/
def hasUrlError (c : SNComponentRecord) (isDesktop : Bool) : Bool :=
  if isDesktop then
    !(jsTruthy c.local_url) && !c.hostedUrlValid
  else
    !c.hostedUrlValid

/-- componentView.js line 138:
`this.componentValid = !offlineRestricted && !hasUrlError`. -/
def reloadStatusComponentValid (c : SNComponentRecord) (isDesktop : Bool) : Bool :=
  !(offlineRestricted c isDesktop) && !(hasUrlError c isDesktop)

/-- componentView.js lines 142-148: the error field set by reloadStatus. -/
def reloadStatusError (c : SNComponentRecord) (isDesktop : Bool) : Option String :=
  if offlineRestricted c isDesktop then some "offline-restricted"
  else if hasUrlError c isDesktop then some "url-missing"
  else none

/-- componentView.js line 133:
`component.valid_until && component.valid_until <= new Date()`. -/
def reloadStatusExpired (c : SNComponentRecord) (now : Int) : Bool :=
  match c.valid_until with
  | none => false
  | some v => decide (v ≤ now)

/-- Spec predicate: the component is offline-restricted (offlineOnly on a
non-desktop host). -/
def specOfflineRestricted (c : SNComponentRecord) (isDesktop : Bool) : Prop :=
  c.offlineOnly = true ∧ isDesktop = false

/-- Spec predicate: the component has a usable URL. On a desktop host a
local URL exists or a valid hosted URL resolves; on a non-desktop host
only a valid hosted URL counts. -/
def specUsableUrl (c : SNComponentRecord) (isDesktop : Bool) : Prop :=
  if isDesktop = true then
    jsTruthy c.local_url = true ∨ c.hostedUrlValid = true
  else
    c.hostedUrlValid = true

/-! ## Component view controller state machine

Controller-local fields of ComponentViewCtrl, as far as the load/timeout/
retry protocol reads or writes them. `loadTimerScheduled` models whether
the $timeout armed in handleActivation is still scheduled in the Angular
timer service, `visibilityListenerRegistered` whether onVisibilityChange
is currently attached to the documents visibilitychange event, and
`componentBound` whether `this.component` is non-null. -/

structure CVState where
  loading : Bool
  issueLoading : Bool
  didAttemptReload : Bool
  visibilityListenerRegistered : Bool
  loadTimerScheduled : Bool
  componentValid : Bool
  componentBound : Bool
  deriving DecidableEq, Repr

/-- Fresh controller state: the constructor sets componentValid to true and
every other field starts undefined (falsy). -/
def initCV : CVState :=
  { loading := false
    issueLoading := false
    didAttemptReload := false
    visibilityListenerRegistered := false
    loadTimerScheduled := false
    componentValid := true
    componentBound := true }

/-- External events driving the controller: an activation signal from the
component manager (with whether the component is present and active, and
whether the manager has an iframe for it), the armed load timer firing,
the iframe load event (with the result of the desktop origin probe), a
document visibilitychange event, and controller destruction. -/
inductive CVEvent where
  | activation (componentActive : Bool) (iframeAvailable : Bool)
  | loadTimeoutFires
  | iframeLoad (desktopError : Bool)
  | visibility (visible : Bool)
  | destroy
  deriving DecidableEq, Repr

/-- Counts of reloadComponent calls, split by which handler issued them. -/
structure CVEff where
  timeoutReloads : Nat
  visibilityReloads : Nat
  deriving DecidableEq, Repr

def CVEff.zero : CVEff := ⟨0, 0⟩

def CVEff.add (a b : CVEff) : CVEff :=
  ⟨a.timeoutReloads + b.timeoutReloads,
   a.visibilityReloads + b.visibilityReloads⟩

/-- componentView.js lines 163-184: handleActivation returns early when
the component is missing or inactive, or when the manager has no iframe
for it; otherwise it sets loading, cancels any previous load timer and
arms a fresh one. -/
def handleActivation (s : CVState) (componentActive iframeAvailable : Bool) : CVState :=
  if !(s.componentBound && componentActive) then s
  else if !iframeAvailable then s
  else { s with loading := true, loadTimerScheduled := true }

/-- componentView.js lines 186-200: the load-timeout handler. Returns the
new state together with the number of reloadComponent calls it issued
(reloadComponent sets componentValid to false before awaiting the
manager). -/
def handleIframeLoadTimeout (s : CVState) : CVState × Nat :=
  if s.loading then
    let s1 := { s with loading := false, issueLoading := true }
    if !s1.didAttemptReload then
      ({ s1 with didAttemptReload := true, componentValid := false }, 1)
    else
      ({ s1 with visibilityListenerRegistered := true }, 0)
  else (s, 0)

/-- componentView.js lines 106-113: the visibilitychange handler. Returns
the number of reloadComponent calls it issued. -/
def onVisibilityChange (s : CVState) (visible : Bool) : CVState × Nat :=
  if !visible then (s, 0)
  else if s.issueLoading then
    ({ s with componentValid := false }, 1)
  else (s, 0)

/-- componentView.js lines 202-224: the iframe load handler cancels the
load timer, re-registers the frame window with the manager, and after the
7ms settle delay clears loading and sets issueLoading from the desktop
origin probe. The settle delay is collapsed into the same step; nothing
here touches the visibility listener. -/
def handleIframeLoad (s : CVState) (desktopError : Bool) : CVState :=
  { s with
    loadTimerScheduled := false
    loading := false
    issueLoading := desktopError }

/-- componentView.js lines 29-52: onDestroy removes the visibilitychange
listener and nulls the component reference. No call cancels the load
timer, so its scheduled state is untouched. -/
def onDestroy (s : CVState) : CVState :=
  { s with
    visibilityListenerRegistered := false
    componentBound := false }

/-- One step of the component view controller. A cancelled timer never
fires, and the visibilitychange handler only runs while it is registered
on the document. -/
def cvStep (s : CVState) (e : CVEvent) : CVState × CVEff :=
  match e with
  | .activation a i => (handleActivation s a i, CVEff.zero)
  | .loadTimeoutFires =>
      if s.loadTimerScheduled then
        let p := handleIframeLoadTimeout { s with loadTimerScheduled := false }
        (p.1, ⟨p.2, 0⟩)
      else (s, CVEff.zero)
  | .iframeLoad d => (handleIframeLoad s d, CVEff.zero)
  | .visibility v =>
      if s.visibilityListenerRegistered then
        let p := onVisibilityChange s v
        (p.1, ⟨0, p.2⟩)
      else (s, CVEff.zero)
  | .destroy => (onDestroy s, CVEff.zero)

/-- Run a list of events, accumulating all effects. -/
def runCV : CVState → List CVEvent → CVState × CVEff
  | s, [] => (s, CVEff.zero)
  | s, e :: es =>
      ((runCV (cvStep s e).1 es).1,
       CVEff.add (cvStep s e).2 (runCV (cvStep s e).1 es).2)

/-! ## Editor panel: scheduler, notes, components

The Angular $timeout service becomes an explicit scheduler. Each timer
carries a fresh numeric id (the handle the controller stores in
saveTimeout / statusTimeout), an absolute deadline in ms, a kind (the
sync debounce timer scheduled by saveNote, or the status timer scheduled
by setStatus) and, for status timers, the message their callback will
apply. `$timeout.cancel` removes a timer by id. -/

inductive TKind where
  | sync
  | status
  deriving DecidableEq, Repr

structure Timer where
  id : Nat
  deadline : Int
  kind : TKind
  message : String
  deriving DecidableEq, Repr

structure Scheduler where
  timers : List Timer
  nextId : Nat
  deriving DecidableEq, Repr

def Scheduler.empty : Scheduler := ⟨[], 0⟩

def Scheduler.cancel (sch : Scheduler) (i : Nat) : Scheduler :=
  { sch with timers := sch.timers.filter (fun t => !(t.id == i)) }

def Scheduler.schedule (sch : Scheduler) (deadline : Int) (kind : TKind)
    (message : String) : Scheduler × Nat :=
  ({ timers := sch.timers ++ [⟨sch.nextId, deadline, kind, message⟩]
     nextId := sch.nextId + 1 },
   sch.nextId)

/-- The sync debounce timers currently scheduled. -/
def Scheduler.syncTimers (sch : Scheduler) : List Timer :=
  sch.timers.filter (fun t => t.kind == TKind.sync)

/-- Number of pending sync timers. -/
def Scheduler.countSync (sch : Scheduler) : Nat :=
  sch.syncTimers.length

/-- A note record (snjs SNNote), restricted to the fields this excerpt
reads or mutates. `text` keeps JavaScript nullability: the source guards
with `note.text || ""`. -/
structure SNNoteRecord where
  uuid : Nat
  deleted : Bool
  title : String
  text : Option String
  preview_plain : Option String
  preview_html : Option String
  trashed : Bool
  pinned : Bool
  locked : Bool
  protectedFlag : Bool
  hidePreview : Bool
  archived : Bool
  prefersPlainEditor : Bool
  deriving DecidableEq, Repr

/-- part_000 lines 61-64: the noteStatus slot of the editor state. `date`
is filled in by the status timers callback when it fires. -/
structure NoteStatus where
  message : String
  date : Option Int
  deriving DecidableEq, Repr

/-- part_000 lines 81-85: the title and text the template binds to. -/
structure EditorValues where
  title : String
  text : String
  deriving DecidableEq, Repr

/-- The component areas this excerpt distinguishes (snjs ComponentArea;
the string literals note-tags / editor-editor / editor-stack appear in
the activation handler). -/
inductive CompArea where
  | noteTags
  | editorEditor
  | editorStack
  | themes
  deriving DecidableEq, Repr

/-- A component item as the editor panel sees it. The snjs methods
`isExplicitlyEnabledForItem` and `isDefaultEditor` are external; they are
modelled by the associatedItemIds field and the defaultEditor flag. -/
structure SNComponentItem where
  uuid : Nat
  area : CompArea
  active : Bool
  associatedItemIds : List Nat
  defaultEditor : Bool
  deriving DecidableEq, Repr

def SNComponentItem.isExplicitlyEnabledForItem
    (c : SNComponentItem) (n : SNNoteRecord) : Bool :=
  c.associatedItemIds.contains n.uuid

def SNComponentItem.isDefaultEditor (c : SNComponentItem) : Bool :=
  c.defaultEditor

/-- Controller-local fields of EditorCtrl used by the claims: the state
record (note, noteStatus, selected components), the template-bound editor
values, the two timer handles, and whether the keyboard observers are
registered. -/
structure EdState where
  note : Option SNNoteRecord
  noteStatus : Option NoteStatus
  editorValues : EditorValues
  saveTimeoutRef : Option Nat
  statusTimeoutRef : Option Nat
  selectedEditor : Option SNComponentItem
  tagsComponent : Option SNComponentItem
  componentStack : List SNComponentItem
  keyObserversRegistered : Bool
  saveError : Bool
  deriving DecidableEq, Repr

/-! ## setStatus (part_000 lines 537-558) -/

/-- The wait computed by setStatus before applying a new status: zero when
there is no dated previous status, otherwise the remainder of the 400ms
minimum duration; forced to zero when `wait` is false or the remainder is
negative. -/
def statusWaitMs (s : EdState) (now : Int) (wait : Bool) : Int :=
  let waitForMs : Int :=
    match s.noteStatus with
    | none => 0
    | some st =>
      match st.date with
      | none => 0
      | some d => MINIMUM_STATUS_DURATION - (now - d)
  if !wait || decide (waitForMs < 0) then 0 else waitForMs

/-- setStatus cancels the previous status timer and schedules a new one
whose callback (modelled in fireDue) stamps the status with the fire time
and writes it into noteStatus. -/
def setStatus (s : EdState) (sch : Scheduler) (now : Int)
    (message : String) (wait : Bool) : EdState × Scheduler :=
  let w := statusWaitMs s now wait
  let sch1 :=
    match s.statusTimeoutRef with
    | some i => sch.cancel i
    | none => sch
  let p := sch1.schedule (now + w) TKind.status message
  ({ s with statusTimeoutRef := some p.2 }, p.1)

/-- part_000 lines 506-511: showSavingStatus passes wait = false. -/
def showSavingStatus (s : EdState) (sch : Scheduler) (now : Int) :
    EdState × Scheduler :=
  setStatus s sch now "Saving..." false

/-! ## Item store operations (external item store, as called here) -/

def findItem (store : List SNNoteRecord) (uuid : Nat) : Option SNNoteRecord :=
  store.find? (fun m => m.uuid == uuid)

def changeItem (store : List SNNoteRecord) (uuid : Nat)
    (f : SNNoteRecord → SNNoteRecord) : List SNNoteRecord :=
  store.map (fun m => if m.uuid == uuid then f m else m)

/-- The custom note mutations this file performs (trashed, pinned, locked,
protected, hidePreview, prefersPlainEditor assignments on a NoteMutator);
a NoteMutator can not change uuid or deleted. -/
structure NoteMut where
  trashed : Option Bool
  pinned : Option Bool
  locked : Option Bool
  protectedFlag : Option Bool
  hidePreview : Option Bool
  prefersPlainEditor : Option Bool
  deriving DecidableEq, Repr

def NoteMut.id : NoteMut := ⟨none, none, none, none, none, none⟩

def applyNoteMut (n : SNNoteRecord) (m : NoteMut) : SNNoteRecord :=
  { n with
    trashed := m.trashed.getD n.trashed
    pinned := m.pinned.getD n.pinned
    locked := m.locked.getD n.locked
    protectedFlag := m.protectedFlag.getD n.protectedFlag
    hidePreview := m.hidePreview.getD n.hidePreview
    prefersPlainEditor := m.prefersPlainEditor.getD n.prefersPlainEditor }

/-! ## saveNote (part_000 lines 452-504) -/

/-- The mutator closure passed to changeItem by saveNote: apply the custom
mutation, overwrite title and text from the editor values, and unless
dontUpdatePreviews is set compute the plain preview from the text of the
state note as it was before this mutation (part_000 lines 476-491). -/
def saveNoteMutate (stateNote : SNNoteRecord) (ev : EditorValues)
    (dontUpdatePreviews : Bool) (customMutate : Option NoteMut)
    (item : SNNoteRecord) : SNNoteRecord :=
  let item1 :=
    match customMutate with
    | some m => applyNoteMut item m
    | none => item
  let item2 := { item1 with title := ev.title, text := some ev.text }
  if !dontUpdatePreviews then
    let text := stateNote.text.getD ""
    let truncate := decide (text.length > NOTE_PREVIEW_CHAR_LIMIT)
    let substring := text.take NOTE_PREVIEW_CHAR_LIMIT
    let previewPlain := substring ++ (if truncate then STRING_ELLIPSES else "")
    { item2 with preview_plain := some previewPlain, preview_html := none }
  else item2

/-- Everything a saveNote call produces: the updated controller state,
scheduler and item store, the alerts raised, and the debounce delay of the
sync timer it scheduled (none when it returned early). -/
structure SaveNoteOutcome where
  state : EdState
  sched : Scheduler
  store : List SNNoteRecord
  alerts : List String
  syncDelay : Option Int
  deriving DecidableEq, Repr

/-- part_000 lines 452-504. Returns none only on the JavaScript crash path
where state.note is null (the deleted-note access would throw). On the
guard paths (deleted note, or uuid not found in the item store) the call
alerts and returns with nothing else changed. Otherwise it shows the
saving status, mutates the item, cancels any pending sync timer and
schedules a new one after the debounce delay. -/
def saveNote (s : EdState) (sch : Scheduler) (store : List SNNoteRecord)
    (now : Int) (noAccount : Bool)
    (bypassDebouncer isUserModified dontUpdatePreviews : Bool)
    (customMutate : Option NoteMut) : Option SaveNoteOutcome :=
  match s.note with
  | none => none
  | some note =>
    if note.deleted then
      some ⟨s, sch, store, [STRING_DELETED_NOTE], none⟩
    else if (findItem store note.uuid).isNone then
      some ⟨s, sch, store, [STRING_INVALID_NOTE], none⟩
    else
      let p1 := showSavingStatus s sch now
      let store1 := changeItem store note.uuid
        (saveNoteMutate note s.editorValues dontUpdatePreviews customMutate)
      let sch2 :=
        match s.saveTimeoutRef with
        | some i => p1.2.cancel i
        | none => p1.2
      let noDebounce := bypassDebouncer || noAccount
      let syncDebounceMs :=
        if noDebounce then SAVE_TIMEOUT_NO_DEBOUNCE else SAVE_TIMEOUT_DEBOUNCE
      let p2 := sch2.schedule (now + syncDebounceMs) TKind.sync ""
      some ⟨{ p1.1 with saveTimeoutRef := some p2.2 },
            p2.1, store1, [], some syncDebounceMs⟩

/-- Firing of due timers at time `now`: every timer whose deadline has
passed is consumed; each due sync timer issues one application.sync call,
each due status timer applies its message with the fire time as date. -/
def fireDue (s : EdState) (sch : Scheduler) (now : Int) :
    EdState × Scheduler × Nat :=
  let due := sch.timers.filter (fun t => decide (t.deadline ≤ now))
  let remaining := sch.timers.filter (fun t => !(decide (t.deadline ≤ now)))
  let syncCount := (due.filter (fun t => t.kind == TKind.sync)).length
  let s1 := due.foldl
    (fun acc t =>
      match t.kind with
      | TKind.status => { acc with noteStatus := some ⟨t.message, some now⟩ }
      | TKind.sync => acc)
    s
  (s1, ⟨{ sch with timers := remaining }, syncCount⟩)

/-- part_000 lines 129-148: deinit removes the keyboard observers,
deregisters the component handler and sets the saveTimeout and
statusTimeout references to undefined. It never calls $timeout.cancel, so
the scheduler is untouched and any pending timers remain scheduled. -/
def deinit (s : EdState) (sch : Scheduler) : EdState × Scheduler :=
  ({ s with
      saveTimeoutRef := none
      statusTimeoutRef := none
      keyObserversRegistered := false },
   sch)

/-! ## Editor event loop (for the debounce claims) -/

inductive EdEvent where
  | save (now : Int) (bypassDebouncer isUserModified dontUpdatePreviews : Bool)
      (customMutate : Option NoteMut)
  | fire (now : Int)
  deriving DecidableEq, Repr

def EdEvent.isSave : EdEvent → Bool
  | .save _ _ _ _ _ => true
  | .fire _ => false

structure EdWorld where
  state : EdState
  sched : Scheduler
  store : List SNNoteRecord
  syncsIssued : Nat
  deriving DecidableEq, Repr

def edStep (noAccount : Bool) (w : EdWorld) (e : EdEvent) : Option EdWorld :=
  match e with
  | .save now b u d m =>
    match saveNote w.state w.sched w.store now noAccount b u d m with
    | none => none
    | some out => some ⟨out.state, out.sched, out.store, w.syncsIssued⟩
  | .fire now =>
    let r := fireDue w.state w.sched now
    some ⟨r.1, r.2.1, w.store, w.syncsIssued + r.2.2⟩

def runEd (noAccount : Bool) : EdWorld → List EdEvent → Option EdWorld
  | w, [] => some w
  | w, e :: es =>
    match edStep noAccount w e with
    | none => none
    | some w1 => runEd noAccount w1 es

/-! ## Component handler callbacks (part_000 lines 988-1098) -/

/-- part_000 lines 996-1040: the activation handler. For the note-tags
area it stores or clears the tags component; for the editor area it
applies the selection logic of lines 1001-1035; for the stack area it
only triggers reloadComponentContext (external side effects, selection
unchanged). -/
def activationHandler (c : SNComponentItem) (s : EdState) : EdState :=
  match c.area with
  | CompArea.noteTags =>
      { s with tagsComponent := if c.active then some c else none }
  | CompArea.editorEditor =>
      if s.selectedEditor = some c ∧ c.active = false then
        { s with selectedEditor := none }
      else
        match s.selectedEditor with
        | some sel =>
          if sel.active then
            match s.note with
            | some note =>
              if c.isExplicitlyEnabledForItem note
                  && !(sel.isExplicitlyEnabledForItem note) then
                { s with selectedEditor := some c }
              else s
            | none => s
          else s
        | none =>
          match s.note with
          | some note =>
            let enableable :=
              c.isExplicitlyEnabledForItem note || c.isDefaultEditor
            if c.active && enableable then
              { s with selectedEditor := some c }
            else
              { s with selectedEditor := none }
          | none => s
  | CompArea.editorStack => s
  | CompArea.themes => s

/-- part_000 lines 1041-1049: the context request handler returns the
current note when the requesting component is the selected editor, the
tags component, or a member of the component stack, and undefined
otherwise. -/
def contextRequestHandler (c : SNComponentItem) (s : EdState) :
    Option SNNoteRecord :=
  if s.selectedEditor = some c ∨ s.tagsComponent = some c
      ∨ c ∈ s.componentStack then
    s.note
  else
    none

/-- Spec predicate: the components entitled to receive the note as
context. -/
def contextEntitled (c : SNComponentItem) (s : EdState) : Prop :=
  s.selectedEditor = some c ∨ s.tagsComponent = some c ∨ c ∈ s.componentStack

/-! # Theorems -/

/-! ## Component view step lemmas -/

/-- didAttemptReload is monotone: no event ever resets it. -/
theorem cvStep_didAttemptReload_mono :
    ∀ (s : CVState) (e : CVEvent), s.didAttemptReload = true →
      (cvStep s e).1.didAttemptReload = true := by
  rintro ⟨l, il, dar, vlr, lts, cv, cb⟩ e
  cases e with
  | activation a i => revert a i l il dar vlr lts cv cb; decide
  | loadTimeoutFires => revert l il dar vlr lts cv cb; decide
  | iframeLoad d => revert d l il dar vlr lts cv cb; decide
  | visibility v => revert v l il dar vlr lts cv cb; decide
  | destroy => revert l il dar vlr lts cv cb; decide

/-- A step issues a timeout-handler reload exactly when it flips
didAttemptReload from false to true. -/
theorem cvStep_timeoutReloads_eq :
    ∀ (s : CVState) (e : CVEvent),
      (cvStep s e).2.timeoutReloads
        = (if ((cvStep s e).1.didAttemptReload && !s.didAttemptReload)
           then 1 else 0) := by
  rintro ⟨l, il, dar, vlr, lts, cv, cb⟩ e
  cases e with
  | activation a i => revert a i l il dar vlr lts cv cb; decide
  | loadTimeoutFires => revert l il dar vlr lts cv cb; decide
  | iframeLoad d => revert d l il dar vlr lts cv cb; decide
  | visibility v => revert v l il dar vlr lts cv cb; decide
  | destroy => revert l il dar vlr lts cv cb; decide

/-- Over any run, the cumulative number of reloads issued by the timeout
handler equals the progress of the didAttemptReload flag. -/
theorem runCV_timeout_count (es : List CVEvent) :
    ∀ s : CVState,
      (runCV s es).2.timeoutReloads + (if s.didAttemptReload then 1 else 0)
        = (if (runCV s es).1.didAttemptReload then 1 else 0) := by
  induction es with
  | nil => intro s; simp [runCV, CVEff.zero]
  | cons e es ih =>
    intro s
    have h1 := cvStep_timeoutReloads_eq s e
    have h2 := cvStep_didAttemptReload_mono s e
    have h3 := ih (cvStep s e).1
    simp only [runCV, CVEff.add]
    cases hs : s.didAttemptReload <;>
      cases hm : (cvStep s e).1.didAttemptReload <;>
      simp [hs, hm] at h1 h2 h3 ⊢ <;>
      rw [← h3] <;> omega

/-- A timeout firing while loading with the once-flag clear issues one
reload and sets the flag. -/
theorem cvTimeout_first :
    ∀ s : CVState, s.loadTimerScheduled = true → s.loading = true →
      s.didAttemptReload = false →
        (cvStep s CVEvent.loadTimeoutFires).2.timeoutReloads = 1
        ∧ (cvStep s CVEvent.loadTimeoutFires).1.didAttemptReload = true := by
  rintro ⟨l, il, dar, vlr, lts, cv, cb⟩
  revert l il dar vlr lts cv cb; decide

/-- A timeout firing while loading with the once-flag already set issues
no reload and registers the visibility listener. -/
theorem cvTimeout_subsequent :
    ∀ s : CVState, s.loadTimerScheduled = true → s.loading = true →
      s.didAttemptReload = true →
        (cvStep s CVEvent.loadTimeoutFires).2.timeoutReloads = 0
        ∧ (cvStep s CVEvent.loadTimeoutFires).1.visibilityListenerRegistered
            = true := by
  rintro ⟨l, il, dar, vlr, lts, cv, cb⟩
  revert l il dar vlr lts cv cb; decide

/-- A visibilitychange event issues a reload exactly when the listener is
registered, the page is visible and issueLoading is set. -/
theorem cvVisibility_eff :
    ∀ (s : CVState) (v : Bool),
      (cvStep s (CVEvent.visibility v)).2.visibilityReloads
        = (if (s.visibilityListenerRegistered && v && s.issueLoading)
           then 1 else 0) := by
  rintro ⟨l, il, dar, vlr, lts, cv, cb⟩ v
  revert v l il dar vlr lts cv cb; decide

/-- Destruction removes the visibility listener and nulls the component
reference, and leaves the load timer in whatever scheduled state it was. -/
theorem cvDestroy_fields :
    ∀ s : CVState,
      (cvStep s CVEvent.destroy).1.visibilityListenerRegistered = false
      ∧ (cvStep s CVEvent.destroy).1.componentBound = false
      ∧ (cvStep s CVEvent.destroy).1.loadTimerScheduled
          = s.loadTimerScheduled :=
  fun _ => ⟨rfl, rfl, rfl⟩

/-- The iframe load event leaves the visibility listener untouched and
sets issueLoading from the desktop origin probe. -/
theorem cvIframeLoad_fields :
    ∀ (s : CVState) (d : Bool),
      (cvStep s (CVEvent.iframeLoad d)).1.visibilityListenerRegistered
        = s.visibilityListenerRegistered
      ∧ (cvStep s (CVEvent.iframeLoad d)).1.issueLoading = d :=
  fun _ _ => ⟨rfl, rfl⟩

/-! ## Claim theorems -/

/-- Claim C1: for every mounted component, the first load timeout (timer
firing while loading is still true) triggers exactly one automatic reload
of the component; every subsequent timeout for that controller instance
never triggers an automatic reload and instead only registers a
page-visibility listener, so a reload is issued only when the page next
becomes visible while the issue flag is set. Stated as: (1) over any run
from a fresh controller the timeout handler issues exactly one reload if
the once-flag was set and none otherwise, (2) a timeout firing while
loading with the once-flag clear issues exactly one reload and sets the
flag, (3) a timeout firing while loading with the flag already set issues
no reload and registers the visibility listener, (4) a visibilitychange
event issues a reload exactly when the listener is registered, the page
is visible and issueLoading is set. -/
theorem firstLoadTimeoutReloadsExactlyOnce :
    (∀ es : List CVEvent,
      (runCV initCV es).2.timeoutReloads
        = (if (runCV initCV es).1.didAttemptReload then 1 else 0))
    ∧ (∀ s : CVState, s.loadTimerScheduled = true → s.loading = true →
        s.didAttemptReload = false →
          (cvStep s CVEvent.loadTimeoutFires).2.timeoutReloads = 1
          ∧ (cvStep s CVEvent.loadTimeoutFires).1.didAttemptReload = true)
    ∧ (∀ s : CVState, s.loadTimerScheduled = true → s.loading = true →
        s.didAttemptReload = true →
          (cvStep s CVEvent.loadTimeoutFires).2.timeoutReloads = 0
          ∧ (cvStep s CVEvent.loadTimeoutFires).1.visibilityListenerRegistered
              = true)
    ∧ (∀ (s : CVState) (v : Bool),
        (cvStep s (CVEvent.visibility v)).2.visibilityReloads
          = (if (s.visibilityListenerRegistered && v && s.issueLoading)
             then 1 else 0)) := by
  refine ⟨?_, cvTimeout_first, cvTimeout_subsequent, cvVisibility_eff⟩
  intro es
  have h := runCV_timeout_count es initCV
  simpa [initCV] using h

/-- Witness: a concrete first timeout (loading, timer armed, once-flag
clear) issues exactly one automatic reload. -/
theorem firstLoadTimeoutReloadsExactlyOnce_witness :
    (cvStep ⟨true, false, false, false, true, true, true⟩
        CVEvent.loadTimeoutFires).2.timeoutReloads = 1
    ∧ (cvStep ⟨true, false, false, false, true, true, true⟩
        CVEvent.loadTimeoutFires).1.didAttemptReload = true :=
  firstLoadTimeoutReloadsExactlyOnce.2.1
    ⟨true, false, false, false, true, true, true⟩ rfl rfl rfl

/-- Claim C2 counterexample: teardown does not cancel outstanding timers.
A controller destroyed while its load-timeout timer is armed leaves that
timer scheduled, and an editor deinit performed while a sync timer is
pending leaves the scheduler untouched (one sync timer still live) even
though the saveTimeout reference is nulled. -/
theorem teardownCancelsAllTimers_counterexample :
    (cvStep ⟨true, false, false, false, true, true, true⟩
        CVEvent.destroy).1.loadTimerScheduled = true
    ∧ (deinit ⟨none, none, ⟨"", ""⟩, some 0, none, none, none, [], true, false⟩
        ⟨[⟨0, 450, TKind.sync, ""⟩], 1⟩).2.countSync = 1
    ∧ (deinit ⟨none, none, ⟨"", ""⟩, some 0, none, none, none, [], true, false⟩
        ⟨[⟨0, 450, TKind.sync, ""⟩], 1⟩).1.saveTimeoutRef = none := by
  refine ⟨rfl, ?_, rfl⟩
  decide

/-- Claim C2 (amended): on teardown all listeners are removed and the
timer references are nulled synchronously, but the outstanding timers
themselves are not cancelled: the component view leaves its load-timeout
timer scheduled, and the editor panel leaves its pending save and status
timers in the timer service while dropping its references to them. -/
theorem teardownAmended :
    (∀ s : CVState,
      (cvStep s CVEvent.destroy).1.visibilityListenerRegistered = false
      ∧ (cvStep s CVEvent.destroy).1.componentBound = false
      ∧ (cvStep s CVEvent.destroy).1.loadTimerScheduled
          = s.loadTimerScheduled)
    ∧ (∀ (s : EdState) (sch : Scheduler),
        (deinit s sch).2 = sch
        ∧ (deinit s sch).1.saveTimeoutRef = none
        ∧ (deinit s sch).1.statusTimeoutRef = none
        ∧ (deinit s sch).1.keyObserversRegistered = false) :=
  ⟨fun s => ⟨(cvDestroy_fields s).1, (cvDestroy_fields s).2.1,
      (cvDestroy_fields s).2.2⟩,
   fun _ _ => ⟨rfl, rfl, rfl, rfl⟩⟩

/-- Claim C5 counterexample: a successful iframe load does not remove the
page-visibility listener. In the state reached after a repeated timeout
(listener registered) and a visibility-triggered retry, the load event
completes the load (loading becomes false) yet the listener stays
registered. -/
theorem visibilityListenerRemovedOnLoad_counterexample :
    (cvStep ⟨true, true, true, true, true, false, true⟩
        (CVEvent.iframeLoad false)).1.loading = false
    ∧ (cvStep ⟨true, true, true, true, true, false, true⟩
        (CVEvent.iframeLoad false)).1.visibilityListenerRegistered
        = true :=
  ⟨rfl, rfl⟩

/-- Claim C5 (amended): the page-visibility listener is removed on
teardown only. A successful load leaves it registered but clears
issueLoading (absent a desktop origin error), and while issueLoading is
clear a visibilitychange event never issues a reload, so the surviving
listener is inert. -/
theorem visibilityListenerAmended :
    (∀ s : CVState,
      (cvStep s CVEvent.destroy).1.visibilityListenerRegistered = false)
    ∧ (∀ (s : CVState) (d : Bool),
        (cvStep s (CVEvent.iframeLoad d)).1.visibilityListenerRegistered
          = s.visibilityListenerRegistered
        ∧ (cvStep s (CVEvent.iframeLoad d)).1.issueLoading = d)
    ∧ (∀ (s : CVState) (v : Bool), s.issueLoading = false →
        (cvStep s (CVEvent.visibility v)).2.visibilityReloads = 0) := by
  refine ⟨fun s => (cvDestroy_fields s).1, cvIframeLoad_fields, ?_⟩
  intro s v h
  rw [cvVisibility_eff s v, h]
  simp

/-- Witness: with issueLoading clear, a visibility event on a registered
listener issues no reload. -/
theorem visibilityListenerAmended_witness :
    (cvStep ⟨false, false, true, true, false, true, true⟩
        (CVEvent.visibility true)).2.visibilityReloads = 0 :=
  visibilityListenerAmended.2.2
    ⟨false, false, true, true, false, true, true⟩ true rfl

/-- Claim C4: after every validation pass, componentValid is true iff the
component is not offline-restricted and has a usable URL (desktop: a
local URL exists or a valid hosted URL resolves; non-desktop: only a
valid hosted URL counts); offlineOnly on a non-desktop host forces
validity false regardless of URL state, and absence of both URLs forces
validity false on every host. -/
theorem componentValidIffUsable :
    ∀ (c : SNComponentRecord) (d : Bool),
      (reloadStatusComponentValid c d = true
         ↔ (¬ specOfflineRestricted c d ∧ specUsableUrl c d))
      ∧ (c.offlineOnly = true → d = false →
          reloadStatusComponentValid c d = false)
      ∧ (jsTruthy c.local_url = false → c.hostedUrlValid = false →
          reloadStatusComponentValid c d = false) := by
  intro c d
  rcases c with ⟨off, lu, hv, vu, act⟩
  cases off <;> cases d <;> cases hv <;> cases hlu : jsTruthy lu <;>
    simp [reloadStatusComponentValid, offlineRestricted, hasUrlError,
      specOfflineRestricted, specUsableUrl, hlu]

/-- Witness: an offlineOnly component on a non-desktop host is invalid
even with both URLs available. -/
theorem componentValidIffUsable_witness :
    reloadStatusComponentValid
      ⟨true, some "file:local", true, none, true⟩ false = false :=
  (componentValidIffUsable ⟨true, some "file:local", true, none, true⟩
    false).2.1 rfl rfl

/-! ## setStatus lemmas -/

/-- setStatus always schedules exactly one new status timer, whose id it
stores in statusTimeout and whose deadline is now plus the computed
wait. -/
theorem setStatus_spec (s : EdState) (sch : Scheduler) (now : Int)
    (msg : String) (wait : Bool) :
    ∃ t : Timer,
      (setStatus s sch now msg wait).1.statusTimeoutRef = some t.id
      ∧ t ∈ (setStatus s sch now msg wait).2.timers
      ∧ t.deadline = now + statusWaitMs s now wait
      ∧ t.kind = TKind.status ∧ t.message = msg := by
  cases href : s.statusTimeoutRef with
  | none =>
      exact ⟨⟨sch.nextId, now + statusWaitMs s now wait, TKind.status, msg⟩,
        by simp [setStatus, href, Scheduler.schedule],
        by simp [setStatus, href, Scheduler.schedule],
        rfl, rfl, rfl⟩
  | some i =>
      exact ⟨⟨(sch.cancel i).nextId, now + statusWaitMs s now wait,
          TKind.status, msg⟩,
        by simp [setStatus, href, Scheduler.schedule],
        by simp [setStatus, href, Scheduler.schedule],
        rfl, rfl, rfl⟩

/-- Claim C3 counterexample: two consecutive status changes 100ms apart.
With a previous status applied at time 0, the Saving status requested at
time 100 (showSavingStatus passes wait = false) is scheduled for
immediate application at time 100, only 100ms after the previous status
became visible, which is less than the 400ms minimum the claim states. -/
theorem statusMinimumDuration_counterexample :
    ((showSavingStatus
        ⟨none, some ⟨"All changes saved", some 0⟩, ⟨"", ""⟩,
          none, none, none, none, [], false, false⟩
        Scheduler.empty 100).2.timers.map (fun t => t.deadline)) = [100]
    ∧ (100 : Int) - 0 < MINIMUM_STATUS_DURATION := by
  constructor
  · decide
  · decide

/-- Claim C3 (amended): the 400ms minimum visible duration holds for
every status change queued with wait = true (the default used by the
saved and error statuses): the replacing status is applied no earlier
than 400ms after the date of the currently displayed status. Status
changes queued with wait = false (the Saving status) bypass the minimum
and may replace the earlier status immediately. -/
theorem statusMinimumDurationAmended :
    ∀ (s : EdState) (sch : Scheduler) (now : Int) (msg : String)
      (st : NoteStatus) (d : Int),
      s.noteStatus = some st → st.date = some d →
      ∃ t : Timer,
        (setStatus s sch now msg true).1.statusTimeoutRef = some t.id
        ∧ t ∈ (setStatus s sch now msg true).2.timers
        ∧ MINIMUM_STATUS_DURATION ≤ t.deadline - d := by
  intro s sch now msg st d h1 h2
  obtain ⟨t, ht1, ht2, ht3, _, _⟩ := setStatus_spec s sch now msg true
  refine ⟨t, ht1, ht2, ?_⟩
  rw [ht3]
  simp only [statusWaitMs, h1, h2, MINIMUM_STATUS_DURATION]
  by_cases hw : (400 : Int) - (now - d) < 0 <;> simp [hw] <;> omega

/-- Witness: a status dated 0, replaced at time 100 with wait = true, is
applied at least 400ms after time 0. -/
theorem statusMinimumDurationAmended_witness :
    ∃ t : Timer,
      (setStatus
          ⟨none, some ⟨"Saving...", some 0⟩, ⟨"", ""⟩,
            none, none, none, none, [], false, false⟩
          Scheduler.empty 100 "All changes saved" true).1.statusTimeoutRef
        = some t.id
      ∧ t ∈ (setStatus
          ⟨none, some ⟨"Saving...", some 0⟩, ⟨"", ""⟩,
            none, none, none, none, [], false, false⟩
          Scheduler.empty 100 "All changes saved" true).2.timers
      ∧ MINIMUM_STATUS_DURATION ≤ t.deadline - 0 :=
  statusMinimumDurationAmended
    ⟨none, some ⟨"Saving...", some 0⟩, ⟨"", ""⟩,
      none, none, none, none, [], false, false⟩
    Scheduler.empty 100 "All changes saved" ⟨"Saving...", some 0⟩ 0 rfl rfl

/-- Claim C7: a saveNote call on a deleted note, or on a note whose uuid
is not in the item store, alerts the user and returns with the
controller state, scheduler and item store unchanged: no mutation is
applied and no sync timer is scheduled. -/
theorem saveNoteGuardsAbort :
    ∀ (s : EdState) (sch : Scheduler) (store : List SNNoteRecord)
      (now : Int) (noAcc b u dp : Bool) (m : Option NoteMut)
      (note : SNNoteRecord),
      s.note = some note →
      ((note.deleted = true →
          saveNote s sch store now noAcc b u dp m
            = some ⟨s, sch, store, [STRING_DELETED_NOTE], none⟩)
       ∧ (note.deleted = false → findItem store note.uuid = none →
          saveNote s sch store now noAcc b u dp m
            = some ⟨s, sch, store, [STRING_INVALID_NOTE], none⟩)) := by
  intro s sch store now noAcc b u dp m note h
  constructor
  · intro hd
    simp [saveNote, h, hd]
  · intro hd hf
    simp [saveNote, h, hd, hf]

/-- Witness: saving a concrete deleted note aborts with the deleted-note
alert and changes nothing. -/
theorem saveNoteGuardsAbort_witness :
    saveNote
      ⟨some ⟨1, true, "t", some "x", none, none,
          false, false, false, false, false, false, false⟩,
        none, ⟨"a", "b"⟩, none, none, none, none, [], false, false⟩
      Scheduler.empty [] 0 false false false false none
      = some ⟨⟨some ⟨1, true, "t", some "x", none, none,
          false, false, false, false, false, false, false⟩,
        none, ⟨"a", "b"⟩, none, none, none, none, [], false, false⟩,
        Scheduler.empty, [], [STRING_DELETED_NOTE], none⟩ :=
  (saveNoteGuardsAbort
    ⟨some ⟨1, true, "t", some "x", none, none,
        false, false, false, false, false, false, false⟩,
      none, ⟨"a", "b"⟩, none, none, none, none, [], false, false⟩
    Scheduler.empty [] 0 false false false false none
    ⟨1, true, "t", some "x", none, none,
      false, false, false, false, false, false, false⟩ rfl).1 rfl

/-- Claim C9: a saveNote call that passes the guards with
dontUpdatePreviews false sets the preview_plain of the stored note to the
first 80 characters of the text the state note had before this mutation,
appends the ellipsis exactly when that prior text is longer than 80
characters, and sets preview_html to undefined. -/
theorem saveNotePreviewFromPriorText :
    ∀ (s : EdState) (sch : Scheduler) (store : List SNNoteRecord)
      (now : Int) (noAcc b u : Bool) (m : Option NoteMut)
      (note : SNNoteRecord),
      s.note = some note →
      note.deleted = false →
      (findItem store note.uuid).isSome = true →
      (saveNote s sch store now noAcc b u false m).map SaveNoteOutcome.store
        = some (changeItem store note.uuid
            (saveNoteMutate note s.editorValues false m))
      ∧ ∀ item ∈ changeItem store note.uuid
            (saveNoteMutate note s.editorValues false m),
          item.uuid = note.uuid →
            item.preview_plain
              = some ((note.text.getD "").take NOTE_PREVIEW_CHAR_LIMIT
                  ++ (if NOTE_PREVIEW_CHAR_LIMIT < (note.text.getD "").length
                      then STRING_ELLIPSES else ""))
            ∧ item.preview_html = none := by
  intro s sch store now noAcc b u m note h hd hf
  have hn : (findItem store note.uuid).isNone = false := by
    cases hx : findItem store note.uuid <;> simp [hx] at hf ⊢
  refine ⟨by simp [saveNote, h, hd, hn], ?_⟩
  intro item hmem huid
  simp only [changeItem, List.mem_map] at hmem
  obtain ⟨x, hx, hfx⟩ := hmem
  by_cases hxe : x.uuid == note.uuid
  · rw [if_pos hxe] at hfx
    subst hfx
    constructor
    · simp only [saveNoteMutate, Bool.not_false, if_true]
      by_cases hlen : (note.text.getD "").length > NOTE_PREVIEW_CHAR_LIMIT
      · simp [hlen]
      · simp [hlen]
    · simp [saveNoteMutate]
  · rw [if_neg hxe] at hfx
    subst hfx
    simp at hxe
    exact absurd huid hxe

/-- Witness: a 100-character prior text yields an 80-character preview
plus ellipsis, computed from the prior text even though the editor holds
new text. -/
theorem saveNotePreviewFromPriorText_witness :
    (saveNote
        ⟨some ⟨1, false, "t",
            some (String.mk (List.replicate 100 'a')), none, none,
            false, false, false, false, false, false, false⟩,
          none, ⟨"t2", "new text"⟩, none, none, none, none, [],
          false, false⟩
        Scheduler.empty
        [⟨1, false, "t", some (String.mk (List.replicate 100 'a')),
            none, none, false, false, false, false, false, false, false⟩]
        0 false false false false none).map SaveNoteOutcome.store
      = some (changeItem
          [⟨1, false, "t", some (String.mk (List.replicate 100 'a')),
              none, none, false, false, false, false, false, false, false⟩]
          1
          (saveNoteMutate
            ⟨1, false, "t", some (String.mk (List.replicate 100 'a')),
              none, none, false, false, false, false, false, false, false⟩
            ⟨"t2", "new text"⟩ false none))
    ∧ ∀ item ∈ changeItem
          [⟨1, false, "t", some (String.mk (List.replicate 100 'a')),
              none, none, false, false, false, false, false, false, false⟩]
          1
          (saveNoteMutate
            ⟨1, false, "t", some (String.mk (List.replicate 100 'a')),
              none, none, false, false, false, false, false, false, false⟩
            ⟨"t2", "new text"⟩ false none),
        item.uuid = 1 →
          item.preview_plain
            = some ((String.mk (List.replicate 100 'a')).take
                NOTE_PREVIEW_CHAR_LIMIT
                ++ (if NOTE_PREVIEW_CHAR_LIMIT
                      < (String.mk (List.replicate 100 'a')).length
                    then STRING_ELLIPSES else ""))
          ∧ item.preview_html = none :=
  saveNotePreviewFromPriorText
    ⟨some ⟨1, false, "t",
        some (String.mk (List.replicate 100 'a')), none, none,
        false, false, false, false, false, false, false⟩,
      none, ⟨"t2", "new text"⟩, none, none, none, none, [],
      false, false⟩
    Scheduler.empty
    [⟨1, false, "t", some (String.mk (List.replicate 100 'a')),
        none, none, false, false, false, false, false, false, false⟩]
    0 false false false none
    ⟨1, false, "t", some (String.mk (List.replicate 100 'a')), none, none,
      false, false, false, false, false, false, false⟩
    rfl rfl rfl

/-- Claim C8: when an activation signal arrives for an active editor-area
component explicitly enabled for the current note, while the currently
selected editor is active but not explicitly enabled for that note, the
selected editor is replaced by the newly activated component. -/
theorem explicitlyEnabledEditorTakesPriority :
    ∀ (c sel : SNComponentItem) (s : EdState) (note : SNNoteRecord),
      c.area = CompArea.editorEditor →
      c.active = true →
      s.note = some note →
      s.selectedEditor = some sel →
      sel.active = true →
      c.isExplicitlyEnabledForItem note = true →
      sel.isExplicitlyEnabledForItem note = false →
      (activationHandler c s).selectedEditor = some c := by
  intro c sel s note ha hact hn hsel hsa hce hse
  simp [activationHandler, ha, hact, hn, hsel, hsa, hce, hse]

/-- Witness: a concrete explicitly enabled active editor replaces a
selected default editor that is not explicitly enabled for the note. -/
theorem explicitlyEnabledEditorTakesPriority_witness :
    (activationHandler ⟨10, CompArea.editorEditor, true, [1], false⟩
      ⟨some ⟨1, false, "t", some "x", none, none,
          false, false, false, false, false, false, false⟩,
        none, ⟨"", ""⟩, none, none,
        some ⟨11, CompArea.editorEditor, true, [], true⟩,
        none, [], false, false⟩).selectedEditor
      = some ⟨10, CompArea.editorEditor, true, [1], false⟩ :=
  explicitlyEnabledEditorTakesPriority
    ⟨10, CompArea.editorEditor, true, [1], false⟩
    ⟨11, CompArea.editorEditor, true, [], true⟩
    ⟨some ⟨1, false, "t", some "x", none, none,
        false, false, false, false, false, false, false⟩,
      none, ⟨"", ""⟩, none, none,
      some ⟨11, CompArea.editorEditor, true, [], true⟩,
      none, [], false, false⟩
    ⟨1, false, "t", some "x", none, none,
      false, false, false, false, false, false, false⟩
    rfl rfl rfl rfl rfl rfl rfl

/-- Claim C10: the context request handler hands out the current note
exactly to the selected editor, the tags component and the members of the
component stack; every other component receives undefined. -/
theorem contextRequestOnlyForEntitled :
    ∀ (c : SNComponentItem) (s : EdState),
      (contextEntitled c s → contextRequestHandler c s = s.note)
      ∧ (¬ contextEntitled c s → contextRequestHandler c s = none)
      ∧ (∀ n : SNNoteRecord, contextRequestHandler c s = some n →
          contextEntitled c s ∧ s.note = some n) := by
  intro c s
  refine ⟨?_, ?_, ?_⟩
  · intro h
    unfold contextEntitled at h
    unfold contextRequestHandler
    exact if_pos h
  · intro h
    unfold contextEntitled at h
    unfold contextRequestHandler
    exact if_neg h
  · intro n hn
    unfold contextRequestHandler at hn
    by_cases h : s.selectedEditor = some c ∨ s.tagsComponent = some c
        ∨ c ∈ s.componentStack
    · rw [if_pos h] at hn
      exact ⟨h, hn⟩
    · rw [if_neg h] at hn
      exact Option.noConfusion hn

/-- Witness: a stack member receives the note; an unrelated component
receives undefined. -/
theorem contextRequestOnlyForEntitled_witness :
    contextRequestHandler ⟨10, CompArea.editorStack, true, [], false⟩
      ⟨some ⟨1, false, "t", some "x", none, none,
          false, false, false, false, false, false, false⟩,
        none, ⟨"", ""⟩, none, none, none, none,
        [⟨10, CompArea.editorStack, true, [], false⟩], false, false⟩
      = some ⟨1, false, "t", some "x", none, none,
          false, false, false, false, false, false, false⟩ :=
  (contextRequestOnlyForEntitled
    ⟨10, CompArea.editorStack, true, [], false⟩
    ⟨some ⟨1, false, "t", some "x", none, none,
        false, false, false, false, false, false, false⟩,
      none, ⟨"", ""⟩, none, none, none, none,
      [⟨10, CompArea.editorStack, true, [], false⟩], false, false⟩).1
    (Or.inr (Or.inr (List.mem_singleton.mpr rfl)))

/-! ## Debounce pipeline lemmas (for the single-sync-timer claim) -/

/-- The saveNote mutator never changes the uuid of the item. -/
theorem saveNoteMutate_uuid (note : SNNoteRecord) (ev : EditorValues)
    (dp : Bool) (m : Option NoteMut) (x : SNNoteRecord) :
    (saveNoteMutate note ev dp m x).uuid = x.uuid := by
  unfold saveNoteMutate
  cases m <;> cases dp <;> simp [applyNoteMut]

/-- Filtering twice never yields more elements than filtering once. -/
theorem length_filter_filter_le (p q : Timer → Bool) (l : List Timer) :
    ((l.filter p).filter q).length ≤ (l.filter q).length := by
  induction l with
  | nil => simp
  | cons t l ih =>
    by_cases hp : p t <;> by_cases hq : q t <;>
      simp [List.filter_cons, hp, hq] at ih ⊢ <;> omega

/-- When every sync timer is due, the due sync timers are exactly the sync
timers. -/
theorem filter_sync_due (T : Int) (l : List Timer) :
    (∀ t ∈ l, t.kind = TKind.sync → t.deadline ≤ T) →
    ((l.filter (fun t => decide (t.deadline ≤ T))).filter
        (fun t => t.kind == TKind.sync)).length
      = (l.filter (fun t => t.kind == TKind.sync)).length := by
  induction l with
  | nil => intro _; rfl
  | cons t l ih =>
    intro h
    have ht := h t (List.mem_cons_self t l)
    have hl : ∀ x ∈ l, x.kind = TKind.sync → x.deadline ≤ T :=
      fun x hx => h x (List.mem_cons_of_mem t hx)
    have ih2 := ih hl
    by_cases hk : t.kind = TKind.sync
    · have hd : t.deadline ≤ T := ht hk
      simp [List.filter_cons, hd, hk] at ih2 ⊢
      omega
    · by_cases hd : t.deadline ≤ T <;>
        simp [List.filter_cons, hd, hk] at ih2 ⊢ <;> omega

/-- The status-applying fold of fireDue never touches the saveTimeout
reference. -/
theorem fireFold_saveRef (now : Int) :
    ∀ (l : List Timer) (s : EdState),
      (l.foldl (fun acc t =>
          match t.kind with
          | TKind.status => { acc with noteStatus := some ⟨t.message, some now⟩ }
          | TKind.sync => acc) s).saveTimeoutRef = s.saveTimeoutRef := by
  intro l
  induction l with
  | nil => intro s; rfl
  | cons t l ih =>
    intro s
    rw [List.foldl_cons, ih]
    cases hk : t.kind <;> simp [hk]

/-- The status-applying fold of fireDue never touches the note. -/
theorem fireFold_note (now : Int) :
    ∀ (l : List Timer) (s : EdState),
      (l.foldl (fun acc t =>
          match t.kind with
          | TKind.status => { acc with noteStatus := some ⟨t.message, some now⟩ }
          | TKind.sync => acc) s).note = s.note := by
  intro l
  induction l with
  | nil => intro s; rfl
  | cons t l ih =>
    intro s
    rw [List.foldl_cons, ih]
    cases hk : t.kind <;> simp [hk]

/-- Projections of fireDue: the saveTimeout reference and the note are
untouched, the scheduler keeps exactly the undue timers, and the number
of issued syncs is the number of due sync timers. -/
theorem fireDue_fields (s : EdState) (sch : Scheduler) (now : Int) :
    (fireDue s sch now).1.saveTimeoutRef = s.saveTimeoutRef
    ∧ (fireDue s sch now).1.note = s.note
    ∧ (fireDue s sch now).2.1.timers
        = sch.timers.filter (fun t => !(decide (t.deadline ≤ now)))
    ∧ (fireDue s sch now).2.2
        = ((sch.timers.filter (fun t => decide (t.deadline ≤ now))).filter
            (fun t => t.kind == TKind.sync)).length :=
  ⟨fireFold_saveRef now _ s, fireFold_note now _ s, rfl, rfl⟩

/-- A uuid present in the store is still present after a saveNote
mutation. -/
theorem changeItem_preserves_uuid_mem (store : List SNNoteRecord)
    (u : Nat) (note : SNNoteRecord) (ev : EditorValues) (dp : Bool)
    (m : Option NoteMut) :
    (∃ mm ∈ store, mm.uuid = u) →
    ∃ mm ∈ changeItem store u (saveNoteMutate note ev dp m), mm.uuid = u := by
  rintro ⟨mm, hmm, hu⟩
  refine ⟨(fun x => if x.uuid == u then saveNoteMutate note ev dp m x else x) mm,
    List.mem_map_of_mem _ hmm, ?_⟩
  by_cases hx : mm.uuid == u
  · simp only [hx, if_true]
    rw [saveNoteMutate_uuid]
    exact hu
  · simp only [hx, if_false]
    exact hu

/-- A uuid is absent from the item store exactly when findItem misses. -/
theorem findItem_isNone_false_iff (store : List SNNoteRecord) (u : Nat) :
    (findItem store u).isNone = false ↔ ∃ mm ∈ store, mm.uuid = u := by
  unfold findItem
  cases hx : store.find? (fun m => m.uuid == u) with
  | none =>
    constructor
    · intro h
      simp at h
    · rintro ⟨mm, hmm, hu⟩
      have h2 := List.find?_eq_none.mp hx mm hmm
      simp [hu] at h2
  | some v =>
    constructor
    · intro _
      refine ⟨v, List.mem_of_find?_eq_some hx, ?_⟩
      have h2 := List.find?_some hx
      simpa using h2
    · intro _
      simp

/-- After showSavingStatus and the cancellation of the previous sync
timer, no sync timer remains scheduled: every previously pending sync
timer carried the id stored in saveTimeout, which is exactly the id being
cancelled, and the freshly scheduled status timer is not a sync timer. -/
theorem no_sync_in_pending (s : EdState) (sch : Scheduler) (now : Int) :
    (∀ t ∈ sch.timers, t.kind = TKind.sync → s.saveTimeoutRef = some t.id) →
    ∀ t ∈ (match s.saveTimeoutRef with
            | some i => ((showSavingStatus s sch now).2).cancel i
            | none => (showSavingStatus s sch now).2).timers,
      ¬ t.kind = TKind.sync := by
  intro hB
  have hmem : ∀ x : Timer, x ∈ (showSavingStatus s sch now).2.timers →
      x ∈ sch.timers ∨ x.kind = TKind.status := by
    intro x hx
    unfold showSavingStatus setStatus at hx
    cases hsr : s.statusTimeoutRef <;>
      simp [hsr, Scheduler.schedule, Scheduler.cancel] at hx
    · rcases hx with hx | hx
      · exact Or.inl hx
      · right; rw [hx]
    · rcases hx with hx | hx
      · exact Or.inl hx.1
      · right; rw [hx]
  intro t ht hk
  cases href : s.saveTimeoutRef with
  | none =>
    rw [href] at ht
    rcases hmem t ht with h | h
    · have := hB t h hk
      rw [href] at this
      exact Option.noConfusion this
    · rw [hk] at h
      exact TKind.noConfusion h
  | some i =>
    rw [href] at ht
    simp only [Scheduler.cancel, List.mem_filter] at ht
    rcases hmem t ht.1 with h | h
    · have h2 := hB t h hk
      rw [href] at h2
      have hid := Option.some.inj h2
      rw [← hid] at ht
      simp at ht
    · rw [hk] at h
      exact TKind.noConfusion h

/-- Structure of a guard-passing saveNote call: no alerts, the state note
untouched, exactly one pending sync timer (the freshly scheduled one,
whose id is the new saveTimeout reference), the debounce delay following
the bypass/no-account rule, and the note uuid still present in the
store. -/
theorem saveNote_success_spec :
    ∀ (s : EdState) (sch : Scheduler) (store : List SNNoteRecord)
      (now : Int) (noAcc b u dp : Bool) (m : Option NoteMut)
      (note : SNNoteRecord) (out : SaveNoteOutcome),
      s.note = some note → note.deleted = false →
      (∃ mm ∈ store, mm.uuid = note.uuid) →
      (∀ t ∈ sch.timers, t.kind = TKind.sync →
        s.saveTimeoutRef = some t.id) →
      saveNote s sch store now noAcc b u dp m = some out →
      out.alerts = []
      ∧ out.state.note = some note
      ∧ (∀ t ∈ out.sched.timers, t.kind = TKind.sync →
          out.state.saveTimeoutRef = some t.id)
      ∧ out.sched.countSync = 1
      ∧ out.syncDelay = some (if (b || noAcc) then SAVE_TIMEOUT_NO_DEBOUNCE
          else SAVE_TIMEOUT_DEBOUNCE)
      ∧ (∃ mm ∈ out.store, mm.uuid = note.uuid) := by
  intro s sch store now noAcc b u dp m note out h hd hex hB hsv
  have hf : (findItem store note.uuid).isNone = false :=
    (findItem_isNone_false_iff store note.uuid).mpr hex
  simp only [saveNote, h, hd, hf, Bool.false_eq_true, if_false,
    Option.some.injEq] at hsv
  subst hsv
  have hnil : List.filter (fun (t : Timer) => t.kind == TKind.sync)
      (match s.saveTimeoutRef with
        | some i => ((showSavingStatus s sch now).2).cancel i
        | none => (showSavingStatus s sch now).2).timers = [] := by
    refine List.filter_eq_nil_iff.mpr ?_
    intro t ht
    have hns := no_sync_in_pending s sch now hB t ht
    simpa using hns
  refine ⟨rfl, ?_, ?_, ?_, ?_, ?_⟩
  · simp [showSavingStatus, setStatus, h]
  · intro t ht hk
    simp only [Scheduler.schedule] at ht ⊢
    rw [List.mem_append] at ht
    rcases ht with ht | ht
    · exact absurd hk (no_sync_in_pending s sch now hB t ht)
    · rw [List.mem_singleton] at ht
      subst ht
      rfl
  · simp [Scheduler.countSync, Scheduler.syncTimers, Scheduler.schedule,
      List.filter_append, hnil]
  · cases b <;> cases noAcc <;> simp
  · exact changeItem_preserves_uuid_mem store note.uuid note
      s.editorValues dp m hex

/-- Every saveNote call either leaves the controller state and scheduler
untouched (guard path) or establishes that exactly one sync timer is
pending, carrying the stored reference id. -/
theorem saveNote_inv_step :
    ∀ (s : EdState) (sch : Scheduler) (store : List SNNoteRecord)
      (now : Int) (noAcc b u dp : Bool) (m : Option NoteMut)
      (out : SaveNoteOutcome),
      (∀ t ∈ sch.timers, t.kind = TKind.sync →
        s.saveTimeoutRef = some t.id) →
      saveNote s sch store now noAcc b u dp m = some out →
      (out.state = s ∧ out.sched = sch)
      ∨ ((∀ t ∈ out.sched.timers, t.kind = TKind.sync →
            out.state.saveTimeoutRef = some t.id)
         ∧ out.sched.countSync = 1) := by
  intro s sch store now noAcc b u dp m out hB hsv
  cases hnote : s.note with
  | none => simp [saveNote, hnote] at hsv
  | some note =>
    cases hdd : note.deleted with
    | true =>
      left
      simp [saveNote, hnote, hdd] at hsv
      rw [← hsv]
      exact ⟨rfl, rfl⟩
    | false =>
      cases hff : (findItem store note.uuid).isNone with
      | true =>
        left
        simp [saveNote, hnote, hdd, hff] at hsv
        rw [← hsv]
        exact ⟨rfl, rfl⟩
      | false =>
        right
        have hex := (findItem_isNone_false_iff store note.uuid).mp hff
        have hspec := saveNote_success_spec s sch store now noAcc b u dp m
          note out hnote hdd hex hB hsv
        exact ⟨hspec.2.2.1, hspec.2.2.2.1⟩

/-- One editor event preserves the single-pending-sync-timer invariant. -/
theorem edStep_syncInv :
    ∀ (noAcc : Bool) (w : EdWorld) (e : EdEvent) (w1 : EdWorld),
      (∀ t ∈ w.sched.timers, t.kind = TKind.sync →
        w.state.saveTimeoutRef = some t.id) →
      w.sched.countSync ≤ 1 →
      edStep noAcc w e = some w1 →
      (∀ t ∈ w1.sched.timers, t.kind = TKind.sync →
        w1.state.saveTimeoutRef = some t.id)
      ∧ w1.sched.countSync ≤ 1 := by
  intro noAcc w e w1 hB hc hstep
  cases e with
  | save now b u dp m =>
    cases hsv : saveNote w.state w.sched w.store now noAcc b u dp m with
    | none => simp [edStep, hsv] at hstep
    | some out =>
      simp only [edStep, hsv, Option.some.injEq] at hstep
      subst hstep
      rcases saveNote_inv_step _ _ _ _ _ _ _ _ _ _ hB hsv with
        ⟨h1, h2⟩ | ⟨h1, h2⟩
      · constructor
        · intro t ht hk
          rw [h2] at ht
          rw [h1]
          exact hB t ht hk
        · rw [h2]
          exact hc
      · exact ⟨h1, by rw [h2]⟩
  | fire now =>
    simp only [edStep, Option.some.injEq] at hstep
    subst hstep
    obtain ⟨hf1, hf2, hf3, hf4⟩ := fireDue_fields w.state w.sched now
    constructor
    · intro t ht hk
      rw [hf3] at ht
      rw [hf1]
      exact hB t (List.mem_filter.mp ht).1 hk
    · have hle := length_filter_filter_le
        (fun t => !(decide (t.deadline ≤ now)))
        (fun t => t.kind == TKind.sync) w.sched.timers
      simp only [Scheduler.countSync, Scheduler.syncTimers] at hc ⊢
      rw [hf3]
      exact le_trans hle hc

/-- The single-pending-sync-timer invariant holds along any run. -/
theorem runEd_syncInv :
    ∀ (es : List EdEvent) (noAcc : Bool) (w w1 : EdWorld),
      (∀ t ∈ w.sched.timers, t.kind = TKind.sync →
        w.state.saveTimeoutRef = some t.id) →
      w.sched.countSync ≤ 1 →
      runEd noAcc w es = some w1 →
      w1.sched.countSync ≤ 1 := by
  intro es
  induction es with
  | nil =>
    intro noAcc w w1 hB hc hrun
    simp only [runEd, Option.some.injEq] at hrun
    rw [← hrun]
    exact hc
  | cons e es ih =>
    intro noAcc w w1 hB hc hrun
    simp only [runEd] at hrun
    cases hstep : edStep noAcc w e with
    | none =>
      rw [hstep] at hrun
      exact absurd hrun (by simp)
    | some w2 =>
      rw [hstep] at hrun
      obtain ⟨hB2, hc2⟩ := edStep_syncInv noAcc w e w2 hB hc hstep
      exact ih noAcc w2 w1 hB2 hc2 hrun

/-- A nonempty run of saveNote calls on a live, findable note succeeds,
keeps the note and its store entry, issues no sync yet, and ends with
exactly one pending sync timer. -/
theorem runSaves_spec :
    ∀ (es : List EdEvent) (noAcc : Bool) (w : EdWorld) (n : SNNoteRecord),
      (∀ e ∈ es, e.isSave = true) →
      w.state.note = some n →
      n.deleted = false →
      (∃ mm ∈ w.store, mm.uuid = n.uuid) →
      (∀ t ∈ w.sched.timers, t.kind = TKind.sync →
        w.state.saveTimeoutRef = some t.id) →
      ∃ w1, runEd noAcc w es = some w1
        ∧ w1.state.note = some n
        ∧ (∃ mm ∈ w1.store, mm.uuid = n.uuid)
        ∧ (∀ t ∈ w1.sched.timers, t.kind = TKind.sync →
            w1.state.saveTimeoutRef = some t.id)
        ∧ w1.syncsIssued = w.syncsIssued
        ∧ (es = [] → w1 = w)
        ∧ (¬ es = [] → w1.sched.countSync = 1) := by
  intro es
  induction es with
  | nil =>
    intro noAcc w n hs hn hd hex hB
    exact ⟨w, rfl, hn, hex, hB, rfl, fun _ => rfl,
      fun hne => absurd rfl hne⟩
  | cons e es ih =>
    intro noAcc w n hs hn hd hex hB
    have he := hs e (List.mem_cons_self e es)
    cases e with
    | fire now => simp [EdEvent.isSave] at he
    | save now b u dp m =>
      cases hsv : saveNote w.state w.sched w.store now noAcc b u dp m with
      | none =>
        exfalso
        simp only [saveNote, hn] at hsv
        split at hsv
        · simp at hsv
        · split at hsv
          · simp at hsv
          · simp at hsv
      | some out =>
        have hspec := saveNote_success_spec w.state w.sched w.store now
          noAcc b u dp m n out hn hd hex hB hsv
        have hstep : edStep noAcc w (EdEvent.save now b u dp m)
            = some ⟨out.state, out.sched, out.store, w.syncsIssued⟩ := by
          simp [edStep, hsv]
        have hs2 : ∀ x ∈ es, EdEvent.isSave x = true :=
          fun x hx => hs x (List.mem_cons_of_mem _ hx)
        obtain ⟨w1, hrun, p1, p2, p3, p4, p5, p6⟩ :=
          ih noAcc ⟨out.state, out.sched, out.store, w.syncsIssued⟩ n hs2
            hspec.2.1 hd hspec.2.2.2.2.2 hspec.2.2.1
        refine ⟨w1, ?_, p1, p2, p3, p4, ?_, ?_⟩
        · simp only [runEd, hstep]
          exact hrun
        · intro hcc
          exact absurd hcc (List.cons_ne_nil _ es)
        · intro _
          by_cases hes : es = []
          · rw [p5 hes]
            exact hspec.2.2.2.1
          · exact p6 hes

/-- Claim C6: at most one pending sync timer ever exists in the editor
panel; every saveNote call cancels any prior pending sync timer before
scheduling a new one, so N edits arriving within one debounce window
issue exactly one sync; and the debounce delay is 100ms when bypassing
the debouncer or when the session has no remote account, 350ms otherwise.
Stated as: (1) along any run of editor events from an empty timer
service, at most one sync timer is pending; (2) any saveNote call that
schedules (no alert raised) uses the 100ms/350ms debounce rule; (3) a
nonempty run of saveNote calls on a live note schedules exactly one
pending sync timer, issues no sync while the edits arrive, and the flush
once the debounce window passes issues exactly one sync. -/
theorem saveNoteDebounceSingleSync :
    (∀ (noAcc : Bool) (w : EdWorld) (es : List EdEvent) (w1 : EdWorld),
      w.sched = Scheduler.empty →
      runEd noAcc w es = some w1 →
      w1.sched.countSync ≤ 1)
    ∧ (∀ (s : EdState) (sch : Scheduler) (store : List SNNoteRecord)
        (now : Int) (noAcc b u dp : Bool) (m : Option NoteMut)
        (out : SaveNoteOutcome),
        saveNote s sch store now noAcc b u dp m = some out →
        out.alerts = [] →
        out.syncDelay = some (if (b || noAcc) then SAVE_TIMEOUT_NO_DEBOUNCE
            else SAVE_TIMEOUT_DEBOUNCE))
    ∧ (∀ (noAcc : Bool) (w : EdWorld) (es : List EdEvent) (w1 : EdWorld)
        (n : SNNoteRecord) (T : Int),
        w.sched = Scheduler.empty →
        w.state.note = some n →
        n.deleted = false →
        (∃ mm ∈ w.store, mm.uuid = n.uuid) →
        (∀ e ∈ es, e.isSave = true) →
        ¬ es = [] →
        runEd noAcc w es = some w1 →
        w1.sched.countSync = 1
        ∧ w1.syncsIssued = w.syncsIssued
        ∧ ((∀ t ∈ w1.sched.timers, t.kind = TKind.sync → t.deadline ≤ T) →
          ∃ w2, edStep noAcc w1 (EdEvent.fire T) = some w2
            ∧ w2.syncsIssued = w.syncsIssued + 1)) := by
  refine ⟨?_, ?_, ?_⟩
  · intro noAcc w es w1 hsch hrun
    refine runEd_syncInv es noAcc w w1 ?_ ?_ hrun
    · intro t ht hk
      rw [hsch] at ht
      simp [Scheduler.empty] at ht
    · rw [hsch]
      decide
  · intro s sch store now noAcc b u dp m out hsv hal
    cases hnote : s.note with
    | none => simp [saveNote, hnote] at hsv
    | some note =>
      cases hdd : note.deleted with
      | true =>
        simp [saveNote, hnote, hdd] at hsv
        rw [← hsv] at hal
        simp at hal
      | false =>
        cases hff : (findItem store note.uuid).isNone with
        | true =>
          simp [saveNote, hnote, hdd, hff] at hsv
          rw [← hsv] at hal
          simp at hal
        | false =>
          simp [saveNote, hnote, hdd, hff] at hsv
          rw [← hsv]
          cases b <;> cases noAcc <;> simp
  · intro noAcc w es w1 n T hsch hn hd hex hsave hne hrun
    have hB : ∀ t ∈ w.sched.timers, t.kind = TKind.sync →
        w.state.saveTimeoutRef = some t.id := by
      intro t ht
      rw [hsch] at ht
      simp [Scheduler.empty] at ht
    obtain ⟨w1x, hrunx, p1, p2, p3, p4, p5, p6⟩ :=
      runSaves_spec es noAcc w n hsave hn hd hex hB
    rw [hrun] at hrunx
    have hw : w1 = w1x := Option.some.inj hrunx
    subst hw
    have hcount := p6 hne
    refine ⟨hcount, p4, ?_⟩
    intro hdue
    obtain ⟨hf1, hf2, hf3, hf4⟩ := fireDue_fields w1.state w1.sched T
    refine ⟨⟨(fireDue w1.state w1.sched T).1,
      (fireDue w1.state w1.sched T).2.1, w1.store,
      w1.syncsIssued + (fireDue w1.state w1.sched T).2.2⟩, rfl, ?_⟩
    have hone := filter_sync_due T w1.sched.timers hdue
    simp only [Scheduler.countSync, Scheduler.syncTimers] at hcount
    rw [hf4, hone, hcount, p4]

/-- Witness: a concrete saveNote call with bypassDebouncer set and no
remote account schedules its sync 100ms out. -/
theorem saveNoteDebounceSingleSync_witness :
    SaveNoteOutcome.syncDelay
      ⟨⟨some ⟨1, false, "t", some "x", none, none,
          false, false, false, false, false, false, false⟩,
        none, ⟨"t", "x"⟩, some 1, some 0, none, none, [], false, false⟩,
       ⟨[⟨0, 0, TKind.status, "Saving..."⟩, ⟨1, 100, TKind.sync, ""⟩], 2⟩,
       [⟨1, false, "t", some "x", none, none,
          false, false, false, false, false, false, false⟩],
       [], some 100⟩
      = some (if ((true : Bool) || false) then SAVE_TIMEOUT_NO_DEBOUNCE
          else SAVE_TIMEOUT_DEBOUNCE) :=
  saveNoteDebounceSingleSync.2.1
    ⟨some ⟨1, false, "t", some "x", none, none,
        false, false, false, false, false, false, false⟩,
      none, ⟨"t", "x"⟩, none, none, none, none, [], false, false⟩
    Scheduler.empty
    [⟨1, false, "t", some "x", none, none,
        false, false, false, false, false, false, false⟩]
    0 false true false true none
    ⟨⟨some ⟨1, false, "t", some "x", none, none,
        false, false, false, false, false, false, false⟩,
      none, ⟨"t", "x"⟩, some 1, some 0, none, none, [], false, false⟩,
     ⟨[⟨0, 0, TKind.status, "Saving..."⟩, ⟨1, 100, TKind.sync, ""⟩], 2⟩,
     [⟨1, false, "t", some "x", none, none,
        false, false, false, false, false, false, false⟩],
     [], some 100⟩
    (by decide) rfl

end Spec2Proof
